import Mathlib

/-!
Shallow embedding of `src/PythonBridge/robust_download.py` (FluxMac).

The script has four parts, embedded here with the source's names where Lean
allows:

* `get_model_size_gb` — the static size table with a default (SizeEstimator);
* `monitor_download_progress` — the background sampling loop, embedded as a
  fold `monitor_run` over the sequence of sampled byte totals (one entry per
  sampling iteration; the `os.walk` summation is abstracted into the sampled
  total, which is all the loop reads from the filesystem);
* `download_model_robust` — the supervisor, embedded as a total function from
  a `DlEnv` environment (results of the effectful calls: home directory,
  whether `mkdir` / `Popen` raise, the poll index at which the subprocess is
  observed exited, its return code and captured streams) to the trace of
  events it performs plus its boolean result;
* `main` — argument-count check and exit-code mapping, as `main_run`.

Python floats are modelled as exact rationals (`ℚ`); the polling clock is
idealised so that the elapsed time read at poll check `k` is `5 * k` seconds
(each loop iteration sleeps 5 seconds).
-/

namespace RobustDownload

/-- Size table of `get_model_size_gb`: 31.4 for "schnell", 4.2 for "dev",
default 2.1 for anything else (`model_sizes.get(model_name, 2.1)`). -/
def get_model_size_gb (model_name : String) : ℚ :=
  if model_name = "schnell" then 31.4
  else if model_name = "dev" then 4.2
  else 2.1

/-- The monitor's `expected_size_bytes = expected_size_gb * 1024 * 1024 * 1024`. -/
def expected_size_bytes (model_name : String) : ℚ :=
  get_model_size_gb model_name * 1024 * 1024 * 1024

/-- The fraction computed in each sampling iteration:
`min(total_size / expected_size_bytes, 0.95)`. -/
def fraction (model_name : String) (total_size : ℕ) : ℚ :=
  min ((total_size : ℚ) / expected_size_bytes model_name) (95 / 100)

/-- One iteration of the `while True` loop of `monitor_download_progress`,
given the current `last_progress` and the sampled byte total: returns the new
`last_progress` together with the emitted progress value, if any.  Mirrors

```
if total_size > 0:
    progress = min(total_size / expected_size_bytes, 0.95)
    if progress > last_progress:
        print(f"PROGRESS: {progress:.2f}", flush=True)
        last_progress = progress
```
-/
def monitor_step (model_name : String) (last_progress : ℚ) (total_size : ℕ) :
    ℚ × Option ℚ :=
  if 0 < total_size then
    let progress := fraction model_name total_size
    if last_progress < progress then (progress, some progress)
    else (last_progress, none)
  else (last_progress, none)

/-- The monitor loop over a finite list of sampled byte totals (one per
sampling iteration), collecting the emitted progress values in order; the
loop body is `monitor_step` with its two tests written out.  The source
initialises `last_progress = 0`. -/
def monitor_run (model_name : String) (last_progress : ℚ) :
    List ℕ → List ℚ
  | [] => []
  | t :: ts =>
    if 0 < t then
      if last_progress < fraction model_name t then
        fraction model_name t :: monitor_run model_name (fraction model_name t) ts
      else monitor_run model_name last_progress ts
    else monitor_run model_name last_progress ts

lemma get_model_size_gb_pos (m : String) : 0 < get_model_size_gb m := by
  unfold get_model_size_gb
  split_ifs <;> norm_num

lemma expected_size_bytes_pos (m : String) : 0 < expected_size_bytes m := by
  have h := get_model_size_gb_pos m
  unfold expected_size_bytes
  positivity

lemma monitor_step_emit (m : String) (l : ℚ) (t : ℕ) (p : ℚ)
    (h : (monitor_step m l t).2 = some p) :
    (monitor_step m l t).1 = p ∧ l < p ∧ p = fraction m t ∧ 0 < t := by
  simp only [monitor_step] at h ⊢
  split_ifs at h ⊢ with h1 h2
  · simp only [Option.some.injEq] at h
    subst h
    exact ⟨rfl, h2, rfl, h1⟩

lemma monitor_run_cons (m : String) (l : ℚ) (t : ℕ) (ts : List ℕ) :
    monitor_run m l (t :: ts) =
      if 0 < t ∧ l < fraction m t then
        fraction m t :: monitor_run m (fraction m t) ts
      else monitor_run m l ts := by
  rw [monitor_run]
  by_cases h1 : 0 < t
  · by_cases h2 : l < fraction m t
    · simp [h1, h2]
    · simp [h1, h2]
  · simp [h1]

lemma monitor_run_mem_gt (m : String) :
    ∀ (ts : List ℕ) (l p : ℚ), p ∈ monitor_run m l ts → l < p := by
  intro ts
  induction ts with
  | nil => intro l p hp; simp [monitor_run] at hp
  | cons t ts ih =>
    intro l p hp
    rw [monitor_run_cons] at hp
    by_cases h : 0 < t ∧ l < fraction m t
    · rw [if_pos h] at hp
      rcases List.mem_cons.mp hp with rfl | hp
      · exact h.2
      · exact lt_trans h.2 (ih _ p hp)
    · rw [if_neg h] at hp
      exact ih l p hp

lemma monitor_run_chain (m : String) :
    ∀ (ts : List ℕ) (l : ℚ), List.Chain' (· < ·) (monitor_run m l ts) := by
  intro ts
  induction ts with
  | nil => intro l; simp [monitor_run]
  | cons t ts ih =>
    intro l
    rw [monitor_run_cons]
    by_cases h : 0 < t ∧ l < fraction m t
    · rw [if_pos h]
      refine List.chain'_cons'.mpr ⟨?_, ih _⟩
      intro b hb
      exact monitor_run_mem_gt m ts _ b (List.mem_of_mem_head? hb)
    · rw [if_neg h]
      exact ih l

lemma fraction_clamped (m : String) (t : ℕ)
    (h : expected_size_bytes m ≤ (t : ℚ)) :
    fraction m t = 95 / 100 := by
  unfold fraction
  have he := expected_size_bytes_pos m
  have h1 : (1 : ℚ) ≤ (t : ℚ) / expected_size_bytes m :=
    (one_le_div he).mpr h
  have : (95 / 100 : ℚ) ≤ (t : ℚ) / expected_size_bytes m := by linarith
  exact min_eq_right this

/-- C1: in each sampling iteration the fraction is
`min(total / expected, 0.95)` (definitional); an event is emitted only when
the fraction strictly exceeds the last emitted value; the emitted sequence is
strictly increasing; and any sampled total at least the expected size yields
the fraction exactly `0.95`, never `1`. -/
theorem c1_monitor_fraction_capped (m : String) (ts : List ℕ) :
    List.Chain' (· < ·) (monitor_run m 0 ts) ∧
    (∀ (l : ℚ) (t : ℕ) (p : ℚ), (monitor_step m l t).2 = some p →
      p = fraction m t ∧ l < p) ∧
    (∀ t : ℕ, expected_size_bytes m ≤ (t : ℕ) → fraction m t = 95 / 100 ∧
      fraction m t ≠ 1) := by
  refine ⟨monitor_run_chain m ts 0, ?_, ?_⟩
  · intro l t p hp
    have h := monitor_step_emit m l t p hp
    exact ⟨h.2.2.1, h.2.1⟩
  · intro t ht
    have h := fraction_clamped m t ht
    refine ⟨h, ?_⟩
    rw [h]; norm_num

/-- Witness for C1 at `m = "dev"`: a sampled total of 5 GiB exceeds the
expected 4.2 GiB size and the fraction is clamped to 0.95. -/
theorem c1_monitor_fraction_capped_witness :
    fraction "dev" 5368709120 = 95 / 100 ∧ fraction "dev" 5368709120 ≠ 1 := by
  have h := (c1_monitor_fraction_capped "dev" []).2.2 5368709120 (by
    unfold expected_size_bytes get_model_size_gb
    rw [if_neg (by decide), if_pos rfl]
    norm_num)
  exact h

/-- C9: `get_model_size_gb` (the basis of `expectedSizeBytes`) is a total
function: any identifier other than "schnell" and "dev" gets the default
2.1 GB, and "dev" gets 4.2 GB; in bytes, the default is `2.1 * 1024^3` and
"dev" is `4.2 * 1024^3`. -/
theorem c9_size_estimator_total (m : String)
    (h1 : m ≠ "schnell") (h2 : m ≠ "dev") :
    get_model_size_gb m = 2.1 ∧
    expected_size_bytes m = 2.1 * 1024 * 1024 * 1024 ∧
    get_model_size_gb "dev" = 4.2 ∧
    expected_size_bytes "dev" = 4.2 * 1024 * 1024 * 1024 := by
  have hm : get_model_size_gb m = 2.1 := by
    unfold get_model_size_gb
    rw [if_neg h1, if_neg h2]
  refine ⟨hm, ?_, ?_, ?_⟩
  · unfold expected_size_bytes; rw [hm]
  · unfold get_model_size_gb
    rw [if_neg (by decide), if_pos rfl]
  · unfold expected_size_bytes get_model_size_gb
    rw [if_neg (by decide), if_pos rfl]

/-- Witness for C9 at the unknown identifier "flux-pro". -/
theorem c9_size_estimator_total_witness :
    get_model_size_gb "flux-pro" = 2.1 ∧
    expected_size_bytes "flux-pro" = 2.1 * 1024 * 1024 * 1024 ∧
    get_model_size_gb "dev" = 4.2 ∧
    expected_size_bytes "dev" = 4.2 * 1024 * 1024 * 1024 :=
  c9_size_estimator_total "flux-pro" (by decide) (by decide)

lemma monitor_run_all_zero (m : String) :
    ∀ (ts : List ℕ) (l : ℚ), (∀ t ∈ ts, t = 0) → monitor_run m l ts = [] := by
  intro ts
  induction ts with
  | nil => intro l _; simp [monitor_run]
  | cons t ts ih =>
    intro l h
    have ht : t = 0 := h t (List.mem_cons_self t ts)
    subst ht
    rw [monitor_run_cons, if_neg (by simp)]
    exact ih l fun x hx => h x (List.mem_cons_of_mem _ hx)

/-- C10: a sampling iteration with byte total 0 emits nothing and leaves the
state unchanged; if every sampled total is 0 the monitor emits nothing at
all; and every progress value ever emitted from the initial state is strictly
positive. -/
theorem c10_zero_total_no_emit (m : String) (ts : List ℕ) (l : ℚ) :
    monitor_step m l 0 = (l, none) ∧
    ((∀ t ∈ ts, t = 0) → monitor_run m l ts = []) ∧
    (∀ p ∈ monitor_run m 0 ts, 0 < p) := by
  refine ⟨?_, monitor_run_all_zero m ts l, ?_⟩
  · unfold monitor_step
    simp
  · intro p hp
    exact monitor_run_mem_gt m ts 0 p hp

/-- Witness for C10: with all-zero samples nothing is emitted, and each
progress value emitted over samples `[0, 1]` is positive. -/
theorem c10_zero_total_no_emit_witness :
    monitor_run "dev" (1/2) [0, 0, 0] = [] ∧
    ∀ p ∈ monitor_run "dev" 0 [0, 1], 0 < p := by
  refine ⟨(c10_zero_total_no_emit "dev" [0, 0, 0] (1/2)).2.1 (by decide),
    (c10_zero_total_no_emit "dev" [0, 1] 0).2.2⟩

/-! ## The supervisor `download_model_robust` and the CLI `main` -/

/-- One observable step of `download_model_robust`: a printed line (kept in a
structured form, one constructor per `print` in the source, with `render`
giving the exact printed text) or an effect that prints nothing (starting the
monitor thread, spawning the subprocess, calling `process.terminate()`). -/
inductive Event where
  | info (s : String)
  | progressLine (q : ℚ) (s : String)
  | downloadComplete
  | downloadError (msg : String)
  | stdoutDump (s : String)
  | stderrDump (s : String)
  | monitorStarted
  | spawned
  | terminated
  deriving DecidableEq

/-- The exact text printed by an event, or `none` for the non-printing
effects. -/
def render : Event → Option String
  | .info s => some s
  | .progressLine _ s => some ("PROGRESS: " ++ s)
  | .downloadComplete => some "DOWNLOAD_COMPLETE"
  | .downloadError msg => some ("DOWNLOAD_ERROR: " ++ msg)
  | .stdoutDump s => some ("STDOUT: " ++ s)
  | .stderrDump s => some ("STDERR: " ++ s)
  | .monitorStarted => none
  | .spawned => none
  | .terminated => none

/-- Whether the event prints a line at all. -/
def emitted (e : Event) : Bool := (render e).isSome

/-- Whether the event is one of the two terminal status tokens
(`DOWNLOAD_COMPLETE` or `DOWNLOAD_ERROR: ...`). -/
def isTerminal : Event → Bool
  | .downloadComplete => true
  | .downloadError _ => true
  | _ => false

/-- The `model_mapping` dictionary lookup of `download_model_robust`. -/
def model_mapping (model_name : String) : Option String :=
  if model_name = "schnell" then some "black-forest-labs/FLUX.1-schnell"
  else if model_name = "dev" then some "black-forest-labs/FLUX.1-dev"
  else none

/-- Environment of one supervisor run: the results of every effectful call
the function makes.  `exit_at = some j` means `process.poll()` first returns
a non-`None` value at poll check number `j` (checks are numbered from 0, one
per loop iteration); `exit_at = none` means the subprocess never exits.
`mkdir_raises` / `spawn_raises` carry the message of an exception raised by
`cache_dir.mkdir(...)` / `subprocess.Popen(...)`, if any.  `stdout_cap` and
`stderr_cap` are what `process.communicate()` returns in the failure path. -/
structure DlEnv where
  home : String
  mkdir_raises : Option String
  spawn_raises : Option String
  exit_at : Option ℕ
  returncode : ℤ
  stdout_cap : String
  stderr_cap : String
  deriving DecidableEq

/-- Whether `process.poll()` still returns `None` at poll check `k`. -/
def alive (exit_at : Option ℕ) (k : ℕ) : Bool :=
  match exit_at with
  | some j => decide (k < j)
  | none => true

/-- Result of the supervisor's polling loop: the subprocess was observed
exited at check `k`, or the 2-hour ceiling was exceeded at check `k`. -/
inductive LoopRes where
  | exited (k : ℕ)
  | timedOut (k : ℕ)
  deriving DecidableEq

/-- The `while process.poll() is None` loop with `timeout = 7200` and a 5 s
sleep per iteration, under the idealised clock where the elapsed time read at
check `k` is `5 * k` seconds: poll first; if the process is still alive and
`elapsed > 7200`, time out; otherwise sleep and re-check. -/
def poll_loop (exit_at : Option ℕ) (k : ℕ) : LoopRes :=
  if alive exit_at k then
    if h : 5 * k > 7200 then .timedOut k
    else poll_loop exit_at (k + 1)
  else .exited k
termination_by 1441 - k
decreasing_by
  simp_wf
  omega

/-- The command string printed as `Command: ...`
(`' '.join(cmd)` over the `huggingface-cli` argument list). -/
def hf_cmd (huggingface_model model_name home : String) : String :=
  "huggingface-cli download " ++ huggingface_model ++ " --local-dir " ++
    home ++ "/.cache/mflux/" ++ model_name ++
    " --local-dir-use-symlinks False --resume-download --quiet"

/-- The event trace common to every run that reaches the `subprocess.Popen`
call: everything `download_model_robust` does from `DOWNLOAD_START` up to the
`Command: ...` line (the monitor thread is started between the
`PROGRESS: 0.05` block and the `PROGRESS: 0.1` line, exactly as in the
source). -/
def pre_spawn_trace (model_name huggingface_model : String) (env : DlEnv) :
    List Event :=
  [Event.info "DOWNLOAD_START",
   Event.info ("Downloading model: " ++ model_name),
   Event.progressLine (1/20) "0.05",
   Event.info "Starting robust download with huggingface-cli...",
   Event.monitorStarted,
   Event.progressLine (1/10) "0.1",
   Event.info "Initializing download...",
   Event.progressLine (1/5) "0.2",
   Event.info "Executing download command...",
   Event.info ("Command: " ++ hf_cmd huggingface_model model_name env.home)]

/-- The trace up to and including a successful `subprocess.Popen`. -/
def spawn_trace (model_name huggingface_model : String) (env : DlEnv) :
    List Event :=
  pre_spawn_trace model_name huggingface_model env ++ [Event.spawned]

/-- Shallow embedding of `download_model_robust`: the full event trace and the
boolean the Python function returns (`True` = Success).  The prints before
each effect, the order of the `mkdir` / mapping-lookup / spawn steps, the
polling loop and the three exit paths follow the source line by line; an
exception recorded in the environment jumps to the top-level
`except Exception` handler, which prints `DOWNLOAD_ERROR: <message>` and
returns `False`. -/
def download_model_robust (model_name : String) (env : DlEnv) :
    List Event × Bool :=
  let pre := [Event.info "DOWNLOAD_START",
              Event.info ("Downloading model: " ++ model_name)]
  match env.mkdir_raises with
  | some msg => (pre ++ [Event.downloadError msg], false)
  | none =>
    match model_mapping model_name with
    | none => (pre ++ [Event.downloadError ("Unknown model " ++ model_name)],
               false)
    | some huggingface_model =>
      match env.spawn_raises with
      | some msg =>
        (pre_spawn_trace model_name huggingface_model env ++
           [Event.downloadError msg], false)
      | none =>
        let pre3 := spawn_trace model_name huggingface_model env
        match poll_loop env.exit_at 0 with
        | .timedOut _ =>
          (pre3 ++ [Event.downloadError "Download timed out after 2 hours",
                    Event.terminated], false)
        | .exited _ =>
          if env.returncode = 0 then
            (pre3 ++ [Event.progressLine 1 "1.0", Event.downloadComplete],
             true)
          else
            (pre3 ++
               [Event.downloadError
                  ("Download failed with return code " ++
                    toString env.returncode),
                Event.stdoutDump env.stdout_cap,
                Event.stderrDump env.stderr_cap], false)

/-- Shallow embedding of `main`: given the positional arguments
(`sys.argv[1:]`), either the usage error path (`len(sys.argv) != 2`) or one
supervisor run; returns the trace and the process exit code. -/
def main_run (args : List String) (env : DlEnv) : List Event × ℕ :=
  match args with
  | [model_name] =>
    let r := download_model_robust model_name env
    (r.1, if r.2 then 0 else 1)
  | _ => ([Event.info "Usage: python robust_download.py <model_name>"], 1)

lemma poll_loop_exited_aux (j : ℕ) (hj : j ≤ 1441) :
    ∀ n k, j - k ≤ n → k ≤ j → poll_loop (some j) k = .exited j := by
  intro n
  induction n with
  | zero =>
    intro k h1 h2
    have hk : k = j := by omega
    subst hk
    rw [poll_loop]
    simp [alive]
  | succ n ih =>
    intro k h1 h2
    rcases eq_or_lt_of_le h2 with rfl | hlt
    · rw [poll_loop]
      simp [alive]
    · rw [poll_loop]
      have ha : alive (some j) k = true := by simp [alive, hlt]
      have h5 : ¬ 5 * k > 7200 := by omega
      rw [if_pos ha, dif_neg h5]
      exact ih (k + 1) (by omega) (by omega)

/-- If the subprocess is observed exited at poll check `j ≤ 1441` (that is,
within the 2-hour ceiling plus one final 5 s interval), the loop leaves with
`exited j`. -/
lemma poll_loop_exited (j : ℕ) (hj : j ≤ 1441) :
    poll_loop (some j) 0 = .exited j :=
  poll_loop_exited_aux j hj j 0 (by omega) (by omega)

lemma poll_loop_timeout_aux (exit_at : Option ℕ)
    (h : ∀ j, exit_at = some j → 1441 < j) :
    ∀ n k, 1441 - k ≤ n → k ≤ 1441 → poll_loop exit_at k = .timedOut 1441 := by
  intro n
  induction n with
  | zero =>
    intro k h1 h2
    have hk : k = 1441 := by omega
    subst hk
    rw [poll_loop]
    have ha : alive exit_at 1441 = true := by
      rcases hx : exit_at with _ | j
      · simp [alive]
      · have := h j hx
        simp [alive, this]
    rw [if_pos ha, dif_pos (by omega)]
  | succ n ih =>
    intro k h1 h2
    rcases eq_or_lt_of_le h2 with rfl | hlt
    · rw [poll_loop]
      have ha : alive exit_at 1441 = true := by
        rcases hx : exit_at with _ | j
        · simp [alive]
        · have := h j hx
          simp [alive, this]
      rw [if_pos ha, dif_pos (by omega)]
    · rw [poll_loop]
      have ha : alive exit_at k = true := by
        rcases hx : exit_at with _ | j
        · simp [alive]
        · have := h j hx
          simp [alive]
          omega
      have h5 : ¬ 5 * k > 7200 := by omega
      rw [if_pos ha, dif_neg h5]
      exact ih (k + 1) (by omega) (by omega)

/-- If the subprocess is never observed exited within the ceiling (it never
exits, or exits only after check 1441), the loop times out exactly at check
1441, where the sampled elapsed time `5 * 1441 = 7205` first exceeds 7200:
the loop never runs past the ceiling by more than one 5 s polling interval. -/
lemma poll_loop_timeout (exit_at : Option ℕ)
    (h : ∀ j, exit_at = some j → 1441 < j) :
    poll_loop exit_at 0 = .timedOut 1441 :=
  poll_loop_timeout_aux exit_at h 1441 0 (by omega) (by omega)

/-- C6: with the cache-directory creation succeeding, a model identifier that
`model_mapping` does not resolve makes the supervisor return `False` right
after printing the unknown-model error token: the trace is exactly the two
header lines plus the error token, so no subprocess is spawned and the
progress monitor is never started. -/
theorem c6_unknown_model_fast_fail (m : String) (env : DlEnv)
    (hmk : env.mkdir_raises = none) (hmap : model_mapping m = none) :
    (download_model_robust m env).2 = false ∧
    (download_model_robust m env).1 =
      [Event.info "DOWNLOAD_START", Event.info ("Downloading model: " ++ m),
       Event.downloadError ("Unknown model " ++ m)] ∧
    Event.spawned ∉ (download_model_robust m env).1 ∧
    Event.monitorStarted ∉ (download_model_robust m env).1 := by
  simp [download_model_robust, hmk, hmap]

/-- Concrete environment: home `/h`, no exceptions, immediate subprocess exit
with return code 0. -/
def envOk : DlEnv :=
  { home := "/h", mkdir_raises := none, spawn_raises := none,
    exit_at := some 0, returncode := 0, stdout_cap := "", stderr_cap := "" }

/-- Witness for C6 at the unknown identifier "foo". -/
theorem c6_unknown_model_fast_fail_witness :
    (download_model_robust "foo" envOk).2 = false ∧
    (download_model_robust "foo" envOk).1 =
      [Event.info "DOWNLOAD_START", Event.info ("Downloading model: " ++ "foo"),
       Event.downloadError ("Unknown model " ++ "foo")] ∧
    Event.spawned ∉ (download_model_robust "foo" envOk).1 ∧
    Event.monitorStarted ∉ (download_model_robust "foo" envOk).1 :=
  c6_unknown_model_fast_fail "foo" envOk rfl rfl

/-- C4: if the spawn succeeds and the subprocess is observed exited within
the ceiling with a nonzero return code, the supervisor returns `False` and
the trace ends with the structured failure token carrying the return code,
followed by the captured stdout and stderr lines. -/
theorem c4_nonzero_exit_failure (m hf : String) (env : DlEnv) (j : ℕ)
    (hmk : env.mkdir_raises = none) (hmap : model_mapping m = some hf)
    (hsp : env.spawn_raises = none) (hex : env.exit_at = some j)
    (hj : j ≤ 1441) (hrc : ¬ env.returncode = 0) :
    (download_model_robust m env).2 = false ∧
    (download_model_robust m env).1 =
      spawn_trace m hf env ++
        [Event.downloadError
           ("Download failed with return code " ++ toString env.returncode),
         Event.stdoutDump env.stdout_cap,
         Event.stderrDump env.stderr_cap] := by
  have hpoll := poll_loop_exited j hj
  simp [download_model_robust, hmk, hmap, hsp, hex, hpoll, hrc]

/-- Concrete environment for the failure path: return code 3, captured
streams "out" and "err". -/
def envFail : DlEnv :=
  { home := "/h", mkdir_raises := none, spawn_raises := none,
    exit_at := some 0, returncode := 3, stdout_cap := "out",
    stderr_cap := "err" }

/-- Witness for C4 at "dev" with return code 3. -/
theorem c4_nonzero_exit_failure_witness :
    (download_model_robust "dev" envFail).2 = false ∧
    (download_model_robust "dev" envFail).1 =
      spawn_trace "dev" "black-forest-labs/FLUX.1-dev" envFail ++
        [Event.downloadError
           ("Download failed with return code " ++ toString envFail.returncode),
         Event.stdoutDump envFail.stdout_cap,
         Event.stderrDump envFail.stderr_cap] :=
  c4_nonzero_exit_failure "dev" "black-forest-labs/FLUX.1-dev" envFail 0
    rfl rfl rfl rfl (by omega) (by decide)

/-- C3: if the subprocess is never observed exited within the ceiling, the
loop times out at check 1441 — the first check whose sampled elapsed time
`5 * 1441 = 7205` exceeds the 7200 s ceiling, so the loop never blocks more
than one 5 s polling interval past the ceiling — the supervisor prints the
timeout `DOWNLOAD_ERROR` token, sends the subprocess a termination signal,
returns `False`, and the CLI exit code is 1. -/
theorem c3_timeout_terminates (m hf : String) (env : DlEnv)
    (hmk : env.mkdir_raises = none) (hmap : model_mapping m = some hf)
    (hsp : env.spawn_raises = none)
    (hex : ∀ j, env.exit_at = some j → 1441 < j) :
    (download_model_robust m env).2 = false ∧
    (download_model_robust m env).1 =
      spawn_trace m hf env ++
        [Event.downloadError "Download timed out after 2 hours",
         Event.terminated] ∧
    poll_loop env.exit_at 0 = .timedOut 1441 ∧
    7200 < 5 * 1441 ∧ 5 * 1441 ≤ 7200 + 5 ∧
    (main_run [m] env).2 = 1 := by
  have hpoll := poll_loop_timeout env.exit_at hex
  have hr : download_model_robust m env =
      (spawn_trace m hf env ++
        [Event.downloadError "Download timed out after 2 hours",
         Event.terminated], false) := by
    simp [download_model_robust, hmk, hmap, hsp, hpoll]
  refine ⟨by rw [hr], by rw [hr], hpoll, by omega, by omega, ?_⟩
  simp [main_run, hr]

/-- Concrete environment for the timeout path: the subprocess never exits. -/
def envHang : DlEnv :=
  { home := "/h", mkdir_raises := none, spawn_raises := none,
    exit_at := none, returncode := 0, stdout_cap := "", stderr_cap := "" }

/-- Witness for C3 at "schnell" with a subprocess that never exits. -/
theorem c3_timeout_terminates_witness :
    (download_model_robust "schnell" envHang).2 = false ∧
    (download_model_robust "schnell" envHang).1 =
      spawn_trace "schnell" "black-forest-labs/FLUX.1-schnell" envHang ++
        [Event.downloadError "Download timed out after 2 hours",
         Event.terminated] ∧
    poll_loop envHang.exit_at 0 = .timedOut 1441 ∧
    7200 < 5 * 1441 ∧ 5 * 1441 ≤ 7200 + 5 ∧
    (main_run ["schnell"] envHang).2 = 1 :=
  c3_timeout_terminates "schnell" "black-forest-labs/FLUX.1-schnell" envHang
    rfl rfl rfl (by intro j h; cases h)

/-- Counterexample to C2 as stated: in a successful run the line printed just
before `DOWNLOAD_COMPLETE` is the hardcoded `print("PROGRESS: 1.0")` — the
rendered text is `PROGRESS: 1.0`, and no event of the whole trace renders as
`PROGRESS: 1.00` with two decimals. -/
theorem c2_counterexample :
    (download_model_robust "dev" envOk).2 = true ∧
    ((download_model_robust "dev" envOk).1.filter emitted).getLast? =
      some Event.downloadComplete ∧
    (((download_model_robust "dev" envOk).1.filter emitted).dropLast).getLast? =
      some (Event.progressLine 1 "1.0") ∧
    render (Event.progressLine 1 "1.0") = some "PROGRESS: 1.0" ∧
    ∀ e ∈ (download_model_robust "dev" envOk).1,
      render e ≠ some "PROGRESS: 1.00" := by
  have hpoll : poll_loop (some 0) 0 = .exited 0 :=
    poll_loop_exited 0 (by omega)
  have hr : download_model_robust "dev" envOk =
      (spawn_trace "dev" "black-forest-labs/FLUX.1-dev" envOk ++
        [Event.progressLine 1 "1.0", Event.downloadComplete], true) := by
    simp [download_model_robust, envOk, model_mapping, hpoll]
  rw [hr]
  refine ⟨rfl, ?_, ?_, rfl, ?_⟩ <;> decide

/-- C2 as amended: if the spawn succeeds and the subprocess is observed
exited within the ceiling with return code 0, the supervisor returns `True`
and the final emitted token is `DOWNLOAD_COMPLETE`, immediately preceded by
the progress line whose printed text is `PROGRESS: 1.0` (value 1, printed
with one decimal, not the monitor's two-decimal format). -/
theorem c2_success_complete (m hf : String) (env : DlEnv) (j : ℕ)
    (hmk : env.mkdir_raises = none) (hmap : model_mapping m = some hf)
    (hsp : env.spawn_raises = none) (hex : env.exit_at = some j)
    (hj : j ≤ 1441) (hrc : env.returncode = 0) :
    (download_model_robust m env).2 = true ∧
    (download_model_robust m env).1 =
      spawn_trace m hf env ++
        [Event.progressLine 1 "1.0", Event.downloadComplete] ∧
    ((download_model_robust m env).1.filter emitted).getLast? =
      some Event.downloadComplete ∧
    (((download_model_robust m env).1.filter emitted).dropLast).getLast? =
      some (Event.progressLine 1 "1.0") ∧
    render (Event.progressLine 1 "1.0") = some "PROGRESS: 1.0" := by
  have hpoll := poll_loop_exited j hj
  have hr : download_model_robust m env =
      (spawn_trace m hf env ++
        [Event.progressLine 1 "1.0", Event.downloadComplete], true) := by
    simp [download_model_robust, hmk, hmap, hsp, hex, hpoll, hrc]
  refine ⟨by rw [hr], by rw [hr], ?_, ?_, rfl⟩ <;>
    simp [hr, spawn_trace, pre_spawn_trace, emitted, render, List.filter]

/-- Witness for C2 (amended) at "dev" in `envOk`. -/
theorem c2_success_complete_witness :
    (download_model_robust "dev" envOk).2 = true ∧
    (download_model_robust "dev" envOk).1 =
      spawn_trace "dev" "black-forest-labs/FLUX.1-dev" envOk ++
        [Event.progressLine 1 "1.0", Event.downloadComplete] ∧
    ((download_model_robust "dev" envOk).1.filter emitted).getLast? =
      some Event.downloadComplete ∧
    (((download_model_robust "dev" envOk).1.filter emitted).dropLast).getLast? =
      some (Event.progressLine 1 "1.0") ∧
    render (Event.progressLine 1 "1.0") = some "PROGRESS: 1.0" :=
  c2_success_complete "dev" "black-forest-labs/FLUX.1-dev" envOk 0
    rfl rfl rfl rfl (by omega) rfl

/-- C5: every supervisor run prints exactly one terminal token
(`DOWNLOAD_COMPLETE` or `DOWNLOAD_ERROR: ...`), over all environments — every
exit path, including an exception raised at the `mkdir` or at the spawn; and
an exception at either point is caught by the top-level handler, which makes
the run return `False` with the exception message as the final
`DOWNLOAD_ERROR` token. -/
theorem c5_exactly_one_terminal (m : String) (env : DlEnv) :
    ((download_model_robust m env).1.filter emitted).countP isTerminal = 1 ∧
    (∀ msg, env.mkdir_raises = some msg →
      (download_model_robust m env).2 = false ∧
      ((download_model_robust m env).1.filter emitted).getLast? =
        some (Event.downloadError msg)) ∧
    (∀ msg, env.mkdir_raises = none → env.spawn_raises = some msg →
      (∃ hf, model_mapping m = some hf) →
      (download_model_robust m env).2 = false ∧
      ((download_model_robust m env).1.filter emitted).getLast? =
        some (Event.downloadError msg)) := by
  rcases hmk : env.mkdir_raises with _ | msg0
  · rcases hmap : model_mapping m with _ | hf
    · refine ⟨?_, ?_, ?_⟩
      · simp [download_model_robust, hmk, hmap, emitted, render, isTerminal]
      · intro msg h; cases h
      · intro msg _ _ hex
        rcases hex with ⟨hf, hhf⟩; cases hhf
    · rcases hsp : env.spawn_raises with _ | msg1
      · rcases hpoll : poll_loop env.exit_at 0 with k | k
        · by_cases hrc : env.returncode = 0
          · refine ⟨?_, ?_, ?_⟩
            · simp [download_model_robust, hmk, hmap, hsp, hpoll, hrc,
                spawn_trace, pre_spawn_trace, emitted, render, isTerminal]
            · intro msg h; cases h
            · intro msg _ h _; cases h
          · refine ⟨?_, ?_, ?_⟩
            · simp [download_model_robust, hmk, hmap, hsp, hpoll, hrc,
                spawn_trace, pre_spawn_trace, emitted, render, isTerminal]
            · intro msg h; cases h
            · intro msg _ h _; cases h
        · refine ⟨?_, ?_, ?_⟩
          · simp [download_model_robust, hmk, hmap, hsp, hpoll,
              spawn_trace, pre_spawn_trace, emitted, render, isTerminal]
          · intro msg h; cases h
          · intro msg _ h _; cases h
      · refine ⟨?_, ?_, ?_⟩
        · simp [download_model_robust, hmk, hmap, hsp,
            pre_spawn_trace, emitted, render, isTerminal]
        · intro msg h; cases h
        · intro msg _ h _
          injection h with h
          subst h
          constructor
          · simp [download_model_robust, hmk, hmap, hsp]
          · simp [download_model_robust, hmk, hmap, hsp,
              pre_spawn_trace, emitted, render]
  · refine ⟨?_, ?_, ?_⟩
    · simp [download_model_robust, hmk, emitted, render, isTerminal]
    · intro msg h
      injection h with h
      subst h
      constructor
      · simp [download_model_robust, hmk]
      · simp [download_model_robust, hmk, emitted, render]
    · intro msg h; cases h

/-- Concrete environment where the spawn raises. -/
def envSpawnBoom : DlEnv :=
  { home := "/h", mkdir_raises := none, spawn_raises := some "boom",
    exit_at := some 0, returncode := 0, stdout_cap := "", stderr_cap := "" }

/-- Witness for C5: a spawn exception at "dev" yields `False` with the
exception message as the final terminal token, and exactly one terminal
token in the trace. -/
theorem c5_exactly_one_terminal_witness :
    ((download_model_robust "dev" envSpawnBoom).1.filter emitted).countP
        isTerminal = 1 ∧
    (download_model_robust "dev" envSpawnBoom).2 = false ∧
    ((download_model_robust "dev" envSpawnBoom).1.filter emitted).getLast? =
      some (Event.downloadError "boom") := by
  have h := c5_exactly_one_terminal "dev" envSpawnBoom
  exact ⟨h.1, h.2.2 "boom" rfl rfl ⟨"black-forest-labs/FLUX.1-dev", rfl⟩⟩

/-- C7: with any arity other than exactly one positional argument the CLI
prints only the usage line, exits with code 1 and spawns nothing; with
exactly one argument the exit code is 0 exactly when the supervisor returned
`True` (Success), and 1 otherwise (Failure or Timeout both return `False`). -/
theorem c7_cli_arity_exit_codes (args : List String) (env : DlEnv) :
    (args.length ≠ 1 →
      (main_run args env).1 =
        [Event.info "Usage: python robust_download.py <model_name>"] ∧
      (main_run args env).2 = 1 ∧
      Event.spawned ∉ (main_run args env).1) ∧
    (∀ m, args = [m] →
      ((main_run args env).2 = 0 ↔ (download_model_robust m env).2 = true)) := by
  constructor
  · intro hlen
    match args, hlen with
    | [], _ => refine ⟨rfl, rfl, by simp [main_run]⟩
    | a :: b :: bs, _ => refine ⟨rfl, rfl, by simp [main_run]⟩
    | [a], h => exact absurd rfl h
  · intro m h
    subst h
    simp only [main_run]
    rcases hb : (download_model_robust m env).2 with _ | _
    · simp [hb]
    · simp [hb]

/-- Witness for C7: zero arguments exit with 1 and spawn nothing; one
argument in `envOk` maps the supervisor result through to the exit code. -/
theorem c7_cli_arity_exit_codes_witness :
    (main_run ([] : List String) envOk).2 = 1 ∧
    Event.spawned ∉ (main_run ([] : List String) envOk).1 ∧
    ((main_run ["dev"] envOk).2 = 0 ↔
      (download_model_robust "dev" envOk).2 = true) := by
  have h0 := (c7_cli_arity_exit_codes [] envOk).1 (by decide)
  have h1 := (c7_cli_arity_exit_codes ["dev"] envOk).2 "dev" rfl
  exact ⟨h0.2.1, h0.2.2, h1⟩

/-! ## C8: the combined token stream of supervisor and monitor -/

/-- The progress fractions of a trace, in emission order. -/
def progressValues (out : List Event) : List ℚ :=
  out.filterMap fun e =>
    match e with
    | Event.progressLine q _ => some q
    | _ => none

/-- Interleaving relation: `Merge as bs cs` holds when `cs` is an
interleaving of `as` and `bs` that keeps the relative order of each — the possible orders in which one consumer of the
shared stdout observes two concurrently printing activities. -/
inductive Merge : List ℚ → List ℚ → List ℚ → Prop where
  | nil : Merge [] [] []
  | left {a : ℚ} {as bs cs : List ℚ} :
      Merge as bs cs → Merge (a :: as) bs (a :: cs)
  | right {b : ℚ} {as bs cs : List ℚ} :
      Merge as bs cs → Merge as (b :: bs) (b :: cs)

/-- A possible sequence of progress fractions observed by a consumer of one
job's output: the supervisor's fractions printed before the monitor thread
starts, followed by any interleaving of the supervisor's remaining fractions
with the monitor's emissions (the monitor samples the given byte totals). -/
def CombinedStream (m : String) (env : DlEnv) (totals : List ℕ)
    (s : List ℚ) : Prop :=
  ∃ pre post mid,
    (download_model_robust m env).1 = pre ++ Event.monitorStarted :: post ∧
    Merge (progressValues post) (monitor_run m 0 totals) mid ∧
    s = progressValues pre ++ mid

/-- A concrete observable fraction sequence for a successful "dev" run whose
cache directories already hold 1 GiB when the monitor first samples (e.g. a
resumed download): the monitor's 5/21 ≈ 0.24 is printed before the
supervisor's hardcoded 0.1. -/
def badStream : List ℚ := [1/20, 5/21, 1/10, 1/5, 1]

/-- Counterexample to C8 as stated: (a) `badStream` is an observable combined
fraction sequence of a real "dev" run, and it is not monotonically
non-decreasing (5/21 > 1/10); (b) in the nonzero-exit path the terminal
`DOWNLOAD_ERROR` token is not the last token emitted — the captured
`STDOUT:` / `STDERR:` lines follow it. -/
theorem c8_counterexample :
    (CombinedStream "dev" envOk [1073741824] badStream ∧
      ¬ List.Chain' (· ≤ ·) badStream) ∧
    (((download_model_robust "dev" envFail).1.filter emitted).getLast? =
        some (Event.stderrDump "err") ∧
      isTerminal (Event.stderrDump "err") = false) := by
  have hpoll : poll_loop (some 0) 0 = .exited 0 :=
    poll_loop_exited 0 (by omega)
  have hr : download_model_robust "dev" envOk =
      (spawn_trace "dev" "black-forest-labs/FLUX.1-dev" envOk ++
        [Event.progressLine 1 "1.0", Event.downloadComplete], true) := by
    simp [download_model_robust, envOk, model_mapping, hpoll]
  have hrf : download_model_robust "dev" envFail =
      (spawn_trace "dev" "black-forest-labs/FLUX.1-dev" envFail ++
        [Event.downloadError
           ("Download failed with return code " ++ toString (3 : ℤ)),
         Event.stdoutDump "out", Event.stderrDump "err"], false) := by
    simp [download_model_robust, envFail, model_mapping, hpoll]
  have hf : fraction "dev" 1073741824 = 5 / 21 := by
    unfold fraction expected_size_bytes get_model_size_gb
    rw [if_neg (by decide), if_pos rfl]
    rw [show ((1073741824 : ℕ) : ℚ) / (4.2 * 1024 * 1024 * 1024) = 5 / 21 by
      norm_num]
    exact min_eq_left (by norm_num)
  have hmon : monitor_run "dev" 0 [1073741824] = [5 / 21] := by
    rw [monitor_run_cons, if_pos ⟨by norm_num, by rw [hf]; norm_num⟩, hf]
    simp [monitor_run]
  refine ⟨⟨?_, ?_⟩, ?_, by decide⟩
  · refine ⟨[Event.info "DOWNLOAD_START",
      Event.info ("Downloading model: " ++ "dev"),
      Event.progressLine (1/20) "0.05",
      Event.info "Starting robust download with huggingface-cli..."],
      [Event.progressLine (1/10) "0.1",
       Event.info "Initializing download...",
       Event.progressLine (1/5) "0.2",
       Event.info "Executing download command...",
       Event.info ("Command: " ++
         hf_cmd "black-forest-labs/FLUX.1-dev" "dev" envOk.home),
       Event.spawned,
       Event.progressLine 1 "1.0", Event.downloadComplete],
      [5/21, 1/10, 1/5, 1], ?_, ?_, ?_⟩
    · rw [hr]
      rfl
    · rw [hmon]
      rw [show progressValues
          [Event.progressLine (1/10) "0.1",
           Event.info "Initializing download...",
           Event.progressLine (1/5) "0.2",
           Event.info "Executing download command...",
           Event.info ("Command: " ++
             hf_cmd "black-forest-labs/FLUX.1-dev" "dev" envOk.home),
           Event.spawned,
           Event.progressLine 1 "1.0", Event.downloadComplete] =
          [1/10, 1/5, 1] from rfl]
      exact Merge.right (Merge.left (Merge.left (Merge.left Merge.nil)))
    · rfl
  · intro hch
    rw [badStream] at hch
    rcases List.chain'_cons.mp hch with ⟨_, hch2⟩
    rcases List.chain'_cons.mp hch2 with ⟨hle, _⟩
    norm_num at hle
  · rw [hrf]
    rfl

/-- C8 as amended: within the supervisor's own sequential trace the progress
fractions are strictly increasing, and the monitor's own emitted fractions
are strictly increasing, but the combined stream is only monotonic per
emitter; the supervisor's token stream always contains a terminal token
followed by nothing except, in the nonzero-exit path, the `STDOUT:` /
`STDERR:` capture lines. -/
theorem c8_per_emitter_monotonic (m : String) (env : DlEnv)
    (totals : List ℕ) :
    List.Chain' (· < ·) (progressValues (download_model_robust m env).1) ∧
    List.Chain' (· < ·) (monitor_run m 0 totals) ∧
    ∃ pre t post,
      (download_model_robust m env).1.filter emitted = pre ++ t :: post ∧
      isTerminal t = true ∧
      (post = [] ∨
        post = [Event.stdoutDump env.stdout_cap,
                Event.stderrDump env.stderr_cap]) := by
  refine ⟨?_, monitor_run_chain m totals 0, ?_⟩
  · rcases hmk : env.mkdir_raises with _ | msg0
    · rcases hmap : model_mapping m with _ | hf
      · simp [download_model_robust, hmk, hmap, progressValues]
      · rcases hsp : env.spawn_raises with _ | msg1
        · rcases hpoll : poll_loop env.exit_at 0 with k | k
          · by_cases hrc : env.returncode = 0
            · simp [download_model_robust, hmk, hmap, hsp, hpoll, hrc,
                spawn_trace, pre_spawn_trace, progressValues]
              norm_num [List.chain'_cons, List.chain'_singleton]
            · simp [download_model_robust, hmk, hmap, hsp, hpoll, hrc,
                spawn_trace, pre_spawn_trace, progressValues]
              norm_num [List.chain'_cons, List.chain'_singleton]
          · simp [download_model_robust, hmk, hmap, hsp, hpoll,
              spawn_trace, pre_spawn_trace, progressValues]
            norm_num [List.chain'_cons, List.chain'_singleton]
        · simp [download_model_robust, hmk, hmap, hsp,
            pre_spawn_trace, progressValues]
          norm_num [List.chain'_cons, List.chain'_singleton]
    · simp [download_model_robust, hmk, progressValues]
  · rcases hmk : env.mkdir_raises with _ | msg0
    · rcases hmap : model_mapping m with _ | hf
      · exact ⟨[Event.info "DOWNLOAD_START",
          Event.info ("Downloading model: " ++ m)],
          Event.downloadError ("Unknown model " ++ m), [],
          by simp [download_model_robust, hmk, hmap, emitted, render],
          rfl, Or.inl rfl⟩
      · rcases hsp : env.spawn_raises with _ | msg1
        · rcases hpoll : poll_loop env.exit_at 0 with k | k
          · by_cases hrc : env.returncode = 0
            · exact ⟨[Event.info "DOWNLOAD_START",
                Event.info ("Downloading model: " ++ m),
                Event.progressLine (1/20) "0.05",
                Event.info "Starting robust download with huggingface-cli...",
                Event.progressLine (1/10) "0.1",
                Event.info "Initializing download...",
                Event.progressLine (1/5) "0.2",
                Event.info "Executing download command...",
                Event.info ("Command: " ++ hf_cmd hf m env.home),
                Event.progressLine 1 "1.0"],
                Event.downloadComplete, [],
                by simp [download_model_robust, hmk, hmap, hsp, hpoll, hrc,
                  spawn_trace, pre_spawn_trace, emitted, render],
                rfl, Or.inl rfl⟩
            · exact ⟨[Event.info "DOWNLOAD_START",
                Event.info ("Downloading model: " ++ m),
                Event.progressLine (1/20) "0.05",
                Event.info "Starting robust download with huggingface-cli...",
                Event.progressLine (1/10) "0.1",
                Event.info "Initializing download...",
                Event.progressLine (1/5) "0.2",
                Event.info "Executing download command...",
                Event.info ("Command: " ++ hf_cmd hf m env.home)],
                Event.downloadError
                  ("Download failed with return code " ++
                    toString env.returncode),
                [Event.stdoutDump env.stdout_cap,
                 Event.stderrDump env.stderr_cap],
                by simp [download_model_robust, hmk, hmap, hsp, hpoll, hrc,
                  spawn_trace, pre_spawn_trace, emitted, render],
                rfl, Or.inr rfl⟩
          · exact ⟨[Event.info "DOWNLOAD_START",
              Event.info ("Downloading model: " ++ m),
              Event.progressLine (1/20) "0.05",
              Event.info "Starting robust download with huggingface-cli...",
              Event.progressLine (1/10) "0.1",
              Event.info "Initializing download...",
              Event.progressLine (1/5) "0.2",
              Event.info "Executing download command...",
              Event.info ("Command: " ++ hf_cmd hf m env.home)],
              Event.downloadError "Download timed out after 2 hours", [],
              by simp [download_model_robust, hmk, hmap, hsp, hpoll,
                spawn_trace, pre_spawn_trace, emitted, render],
              rfl, Or.inl rfl⟩
        · exact ⟨[Event.info "DOWNLOAD_START",
            Event.info ("Downloading model: " ++ m),
            Event.progressLine (1/20) "0.05",
            Event.info "Starting robust download with huggingface-cli...",
            Event.progressLine (1/10) "0.1",
            Event.info "Initializing download...",
            Event.progressLine (1/5) "0.2",
            Event.info "Executing download command...",
            Event.info ("Command: " ++ hf_cmd hf m env.home)],
            Event.downloadError msg1, [],
            by simp [download_model_robust, hmk, hmap, hsp,
              pre_spawn_trace, emitted, render],
            rfl, Or.inl rfl⟩
    · exact ⟨[Event.info "DOWNLOAD_START",
        Event.info ("Downloading model: " ++ m)],
        Event.downloadError msg0, [],
        by simp [download_model_robust, hmk, emitted, render],
        rfl, Or.inl rfl⟩

end RobustDownload
